import Mathlib

/-!
Verification of the odcs-converter core (Excel ⇄ ODCS document transcoding).

The definitions below are a shallow embedding of the Python sources
`src/odcs_converter/excel_parser.py`, `src/odcs_converter/generator.py` and
`src/odcs_converter/models.py`.  Python dictionaries are modelled as ordered
association lists, Excel cell values as the `Cell` type, and JSON-like
document values as the `JValue` type.  Python `int` is modelled by `Int`.
Python `float` is modelled by the exact decimal number type `Dec10`
(mantissa × 10^(-exponent), canonicalised): every float the embedded code
paths produce comes from parsing a short decimal literal, and no claim in
this development depends on IEEE-754 rounding, so exact decimals are a
faithful model of the values compared here.

String primitives (`str.strip`, `str.lower`, `str.split`, `str.isdigit`)
are re-implemented structurally on character lists so that all definitions
evaluate by `rfl`/`decide`; they agree with CPython on the ASCII texts that
appear in the worksheets modelled here.
-/

namespace ODCS

/-- Exact decimal: the value `mant / 10 ^ exp10`.  Canonical when produced by
`mkDec10` (trailing factors of ten are stripped), which makes structural
equality coincide with numeric equality for the decimals handled here. -/
structure Dec10 where
  mant : Int
  exp10 : Nat
  deriving Repr, DecidableEq

/-- Normalise an exact decimal by cancelling factors of ten. -/
def mkDec10 : Int → Nat → Dec10
  | m, 0 => ⟨m, 0⟩
  | m, e + 1 => if m % 10 = 0 then mkDec10 (m / 10) e else ⟨m, e + 1⟩

/-- A JSON-like Python value as handled by the converter: `None`, `bool`,
`int`, `float` (modelled as `Dec10`), `str`, `list`, `dict` (ordered). -/
inductive JValue where
  | null
  | bool (b : Bool)
  | int (n : Int)
  | float (d : Dec10)
  | str (s : String)
  | arr (xs : List JValue)
  | obj (kvs : List (String × JValue))
  deriving Repr

/-- A raw worksheet cell value as seen by `ExcelToODCSParser`: missing cells
and pandas-`NaN` cells (`pd.isna`) are `Cell.none`; otherwise a typed
scalar.  (The worksheet loader `_load_all_worksheets` additionally turns
`""` cells into missing ones via `df.where(df != "", None)`; that step is
applied explicitly where the code path depends on it.) -/
inductive Cell where
  | none
  | bool (b : Bool)
  | int (n : Int)
  | float (d : Dec10)
  | str (s : String)
  deriving Repr, DecidableEq

/-! ### Python string primitives, modelled structurally -/

/-- Python whitespace for `str.strip()` (ASCII portion). -/
def pySpace (c : Char) : Bool :=
  c = ' ' || c = '\t' || c = '\n' || c = '\r' || c = '\x0b' || c = '\x0c'

/-- `str.strip()`: drop leading and trailing whitespace. -/
def pyStrip (s : String) : String :=
  ⟨((s.data.dropWhile pySpace).reverse.dropWhile pySpace).reverse⟩

/-- ASCII lower-casing of one character (as CPython does for ASCII text). -/
def lowerChar (c : Char) : Char :=
  if 'A' ≤ c ∧ c ≤ 'Z' then Char.ofNat (c.toNat + 32) else c

/-- `str.lower()` (ASCII portion). -/
def pyLower (s : String) : String :=
  ⟨s.data.map lowerChar⟩

/-- Python's `str.isdigit()` restricted to ASCII: nonempty and all characters
are decimal digits.  (The unicode-digit cases of `isdigit` do not occur in
the spreadsheet cell texts modelled here.) -/
def pyIsDigit (s : String) : Bool :=
  !s.data.isEmpty && s.data.all Char.isDigit

/-- Numeric value of a list of decimal digit characters. -/
def digitsVal (cs : List Char) : Nat :=
  cs.foldl (fun a c => a * 10 + (c.toNat - '0'.toNat)) 0

/-- `s.split(",")`: split on every comma, keeping empty segments. -/
def splitCommaChars : List Char → List (List Char)
  | [] => [[]]
  | c :: r =>
    let res := splitCommaChars r
    if c = ',' then [] :: res
    else
      match res with
      | h :: t => (c :: h) :: t
      | [] => [[c]]

/-- `[x.strip() for x in s.split(",") if x.strip()]` — the delimited-list
idiom used for tags / examples / valid values / transform sources. -/
def splitTrim (s : String) : List String :=
  ((splitCommaChars s.data).map (fun cs => pyStrip ⟨cs⟩)).filter (fun t => t ≠ "")

/-! ### Python float parsing (`float(s)` on stripped decimal literals) -/

/-- The exponent suffix of a Python float literal: empty, or `e`/`E` followed
by an optionally signed digit string.  `none` on anything else. -/
def floatExp? (cs : List Char) : Option Int :=
  match cs with
  | [] => some 0
  | c :: r =>
    if c = 'e' ∨ c = 'E' then
      let sgr : Int × List Char :=
        match r with
        | '-' :: r2 => (-1, r2)
        | '+' :: r2 => (1, r2)
        | r2 => (1, r2)
      let ds := sgr.2.takeWhile Char.isDigit
      let rest := sgr.2.dropWhile Char.isDigit
      if ds.isEmpty ∨ !rest.isEmpty then Option.none
      else some (sgr.1 * (digitsVal ds : Int))
    else Option.none

/-- Build the decimal `m × 10 ^ k` (for `k : Int`). -/
def decOfMantExp (m : Int) (k : Int) : Dec10 :=
  if 0 ≤ k then mkDec10 (m * (10 : Int) ^ k.toNat) 0
  else mkDec10 m (-k).toNat

/-- Python's `float(s)` on an already-stripped string, for decimal literals:
optional sign, integer digits, optional `.` and fraction digits, optional
exponent; at least one mantissa digit.  (The `inf`/`nan` spellings and the
digit underscores accepted by CPython are not modelled; none of them occur
in the texts the claims quantify over.) -/
def pyFloatOfString? (s : String) : Option Dec10 :=
  let cs := s.data
  let sgcs : Int × List Char :=
    match cs with
    | '-' :: r => (-1, r)
    | '+' :: r => (1, r)
    | r => (1, r)
  let sg := sgcs.1
  let ip := sgcs.2.takeWhile Char.isDigit
  let cs1 := sgcs.2.dropWhile Char.isDigit
  match cs1 with
  | '.' :: r =>
    let fp := r.takeWhile Char.isDigit
    let rest := r.dropWhile Char.isDigit
    if ip.isEmpty ∧ fp.isEmpty then Option.none
    else
      match floatExp? rest with
      | some e => some (decOfMantExp (sg * (digitsVal (ip ++ fp) : Int)) (e - fp.length))
      | Option.none => Option.none
  | rest =>
    if ip.isEmpty then Option.none
    else
      match floatExp? rest with
      | some e => some (decOfMantExp (sg * (digitsVal ip : Int)) e)
      | Option.none => Option.none

/-! ### `str()` of scalar values -/

/-- `str()` of a Python float: decimal digits with a decimal point, integral
values printing a trailing `.0`.  (CPython's shortest-repr digit selection
is irrelevant for exact short decimals, which are the only floats produced
by the embedded code paths.) -/
def pyStrFloat (d : Dec10) : String :=
  let c := mkDec10 d.mant d.exp10
  if c.exp10 = 0 then toString c.mant ++ ".0"
  else
    let sgn := if c.mant < 0 then "-" else ""
    let ds := (toString c.mant.natAbs).data
    let ds := if ds.length ≤ c.exp10 then List.replicate (c.exp10 + 1 - ds.length) '0' ++ ds else ds
    sgn ++ ⟨ds.take (ds.length - c.exp10)⟩ ++ "." ++ ⟨ds.drop (ds.length - c.exp10)⟩

/-- `str()` of a raw cell value; a missing (`None`) cell prints `"None"`.
(A pandas float-NaN would print `"nan"`; both are equally non-matching join
keys, and every `pd.isna` test in the embedding checks `Cell.none` first.) -/
def pyStrCell : Cell → String
  | Cell.none => "None"
  | Cell.bool b => if b then "True" else "False"
  | Cell.int n => toString n
  | Cell.float d => pyStrFloat d
  | Cell.str s => s

/-- `", ".join(...)`. -/
def joinComma : List String → String
  | [] => ""
  | [s] => s
  | s :: r => s ++ ", " ++ joinComma r

mutual

/-- `str()` of a document value.  Scalars follow CPython exactly; for
containers CPython calls `repr` on the elements (quoting strings), which is
approximated here without the quotes — no claim evaluates `str()` on a
container. -/
def pyStrJ : JValue → String
  | JValue.null => "None"
  | JValue.bool b => if b then "True" else "False"
  | JValue.int n => toString n
  | JValue.float d => pyStrFloat d
  | JValue.str s => s
  | JValue.arr xs => "[" ++ joinComma (pyStrJList xs) ++ "]"
  | JValue.obj kvs => "\x7b" ++ joinComma (pyStrJObj kvs) ++ "\x7d"

def pyStrJList : List JValue → List String
  | [] => []
  | v :: r => pyStrJ v :: pyStrJList r

def pyStrJObj : List (String × JValue) → List String
  | [] => []
  | kv :: r => (kv.1 ++ ": " ++ pyStrJ kv.2) :: pyStrJObj r

end

/-! ### `ExcelToODCSParser._convert_value` -/

/-- `ExcelToODCSParser._convert_value`: coerce a raw cell to a typed value.
`None`/`""` → `None`; already-typed scalars pass through; otherwise the
string is stripped and sniffed in order: case-insensitive `"true"`/`"false"`
→ bool, then digit strings without a `.` → int (note: `str.isdigit()`
rejects a leading minus sign), then strings containing a `.` accepted by
`float()` → float, everything else → the stripped string. -/
def convertValue : Cell → JValue
  | Cell.none => JValue.null
  | Cell.bool b => JValue.bool b
  | Cell.int n => JValue.int n
  | Cell.float d => JValue.float d
  | Cell.str s =>
    if s = "" then JValue.null
    else
      let t := pyStrip s
      if pyLower t = "true" then JValue.bool true
      else if pyLower t = "false" then JValue.bool false
      else if !t.data.contains '.' && pyIsDigit t then JValue.int (digitsVal t.data)
      else if t.data.contains '.' then
        match pyFloatOfString? t with
        | some d => JValue.float d
        | Option.none => JValue.str t
      else JValue.str t

example : convertValue (Cell.str "true") = JValue.bool true := rfl
example : convertValue (Cell.str "FALSE") = JValue.bool false := rfl
example : convertValue (Cell.str "42") = JValue.int 42 := rfl
example : convertValue (Cell.str "42.5") = JValue.float ⟨425, 1⟩ := rfl
example : convertValue (Cell.str "") = JValue.null := rfl
example : convertValue (Cell.str "abc") = JValue.str "abc" := rfl
example : convertValue (Cell.str "-7") = JValue.str "-7" := rfl
example : convertValue (Cell.str "1.0") = JValue.float ⟨1, 0⟩ := rfl
example : convertValue (Cell.str "1.0.0") = JValue.str "1.0.0" := rfl
example : convertValue (Cell.str "   ") = JValue.str "" := rfl
example : convertValue (Cell.str "01") = JValue.int 1 := rfl
example : JValue.str "-7" ≠ JValue.int (-7) := by simp

/-! ### The `_parse_*` scalar helpers of `ExcelToODCSParser` -/

/-- `ExcelToODCSParser._parse_string`: `None` on missing/NaN cells, otherwise
`str(value).strip()`, with `""` and case-insensitive `"nan"` mapped to
`None`. -/
def parse_string (c : Cell) : Option String :=
  match c with
  | Cell.none => Option.none
  | c =>
    let t := pyStrip (pyStrCell c)
    if t = "" ∨ pyLower t = "nan" then Option.none else some t

/-- `ExcelToODCSParser._parse_boolean`: missing → `False`; bools pass
through; strings via case-insensitive membership in `true/yes/1/on`;
anything else via Python truthiness (`bool(value)`). -/
def parse_boolean (c : Cell) : Bool :=
  match c with
  | Cell.none => false
  | Cell.bool b => b
  | Cell.str s =>
    pyLower s = "true" || pyLower s = "yes" || pyLower s = "1" || pyLower s = "on"
  | Cell.int n => n != 0
  | Cell.float d => d.mant != 0

/-- Truncation toward zero of `m / 10 ^ e` (Python `int()` of a float). -/
def truncScale (m : Int) (e : Nat) : Int :=
  if 0 ≤ m then ((m.toNat / 10 ^ e : Nat) : Int)
  else -(((-m).toNat / 10 ^ e : Nat) : Int)

/-- Python `int(float)`: truncation toward zero. -/
def decToIntTrunc (d : Dec10) : Int := truncScale d.mant d.exp10

/-- `ExcelToODCSParser._parse_int`: missing → `-1` (the "unset" sentinel);
otherwise `int(float(value))`, with `-1` on unparseable input.  (`float()`
itself strips surrounding whitespace, hence the `pyStrip`.) -/
def parse_int (c : Cell) : Int :=
  match c with
  | Cell.none => -1
  | Cell.bool b => if b then 1 else 0
  | Cell.int n => n
  | Cell.float d => decToIntTrunc d
  | Cell.str s =>
    match pyFloatOfString? (pyStrip s) with
    | some d => decToIntTrunc d
    | Option.none => -1

/-- `float(value)` collapsed to int when integral (`num.is_integer()`). -/
def decToNumJ (d : Dec10) : JValue :=
  let c := mkDec10 d.mant d.exp10
  if c.exp10 = 0 then JValue.int c.mant else JValue.float c

/-- `ExcelToODCSParser._parse_number`: missing → `None`; otherwise
`float(value)`, collapsed to an int when integral, `None` on failure. -/
def parse_number (c : Cell) : Option JValue :=
  match c with
  | Cell.none => Option.none
  | Cell.bool b => some (JValue.int (if b then 1 else 0))
  | Cell.int n => some (JValue.int n)
  | Cell.float d => some (decToNumJ d)
  | Cell.str s =>
    match pyFloatOfString? (pyStrip s) with
    | some d => some (decToNumJ d)
    | Option.none => Option.none

example : parse_string (Cell.str " NaN ") = Option.none := rfl
example : parse_string (Cell.str " x ") = some "x" := rfl
example : parse_int (Cell.str "3.9") = 3 := rfl
example : parse_int (Cell.str "-3.9") = -3 := rfl
example : parse_number (Cell.str "2.0") = some (JValue.int 2) := rfl
example : parse_number (Cell.str "2.5") = some (JValue.float ⟨25, 1⟩) := rfl

/-! ### The Data Cleaner (`ExcelToODCSParser._clean_data`) -/

mutual

/-- `ExcelToODCSParser._clean_data`: rebuild a dict, dropping keys whose
value is `None`, `""`, or whose dict/list value is empty after recursive
cleaning.  Scalars `0` and `False` are kept (only `None` and `""` are
tested for). -/
def cleanData : List (String × JValue) → List (String × JValue)
  | [] => []
  | (k, v) :: rest =>
    match v with
    | JValue.null => cleanData rest
    | JValue.obj kvs =>
      let cd := cleanData kvs
      if cd.isEmpty then cleanData rest else (k, JValue.obj cd) :: cleanData rest
    | JValue.arr xs =>
      let cl := cleanList xs
      if cl.isEmpty then cleanData rest else (k, JValue.arr cl) :: cleanData rest
    | JValue.str s =>
      if s = "" then cleanData rest else (k, JValue.str s) :: cleanData rest
    | JValue.bool b => (k, JValue.bool b) :: cleanData rest
    | JValue.int n => (k, JValue.int n) :: cleanData rest
    | JValue.float d => (k, JValue.float d) :: cleanData rest

/-- The list arm of `_clean_data`: dict items are cleaned recursively and
kept only if nonempty; other items are kept unless they are `None` or `""`
(nested lists are *not* cleaned recursively — the code only recurses into
dict items). -/
def cleanList : List JValue → List JValue
  | [] => []
  | v :: rest =>
    match v with
    | JValue.obj kvs =>
      let cd := cleanData kvs
      if cd.isEmpty then cleanList rest else JValue.obj cd :: cleanList rest
    | JValue.null => cleanList rest
    | JValue.str s =>
      if s = "" then cleanList rest else JValue.str s :: cleanList rest
    | v => v :: cleanList rest

end

example :
    cleanData [("a", JValue.int 0), ("b", JValue.str ""), ("c", JValue.bool false),
      ("d", JValue.obj [("x", JValue.null)]), ("e", JValue.arr [JValue.null, JValue.int 1])]
      = [("a", JValue.int 0), ("c", JValue.bool false), ("e", JValue.arr [JValue.int 1])] := by
  simp [cleanData, cleanList]

mutual

theorem cleanData_idem : (d : List (String × JValue)) → cleanData (cleanData d) = cleanData d
  | [] => by simp [cleanData]
  | (k, v) :: rest => by
    cases v with
    | null => simp [cleanData, cleanData_idem rest]
    | obj kvs =>
      cases hcd : cleanData kvs with
      | nil => simp [cleanData, hcd, cleanData_idem rest]
      | cons x xs =>
        have hk := cleanData_idem kvs
        rw [hcd] at hk
        simp [cleanData, hcd, hk, cleanData_idem rest]
    | arr l =>
      cases hcl : cleanList l with
      | nil => simp [cleanData, hcl, cleanData_idem rest]
      | cons x xs =>
        have hk := cleanList_idem l
        rw [hcl] at hk
        simp [cleanData, hcl, hk, cleanData_idem rest]
    | str s =>
      by_cases hs : s = ""
      · simp [cleanData, hs, cleanData_idem rest]
      · simp [cleanData, hs, cleanData_idem rest]
    | bool b => simp [cleanData, cleanData_idem rest]
    | int n => simp [cleanData, cleanData_idem rest]
    | float q => simp [cleanData, cleanData_idem rest]

theorem cleanList_idem : (l : List JValue) → cleanList (cleanList l) = cleanList l
  | [] => by simp [cleanList]
  | v :: rest => by
    cases v with
    | null => simp [cleanList, cleanList_idem rest]
    | obj kvs =>
      cases hcd : cleanData kvs with
      | nil => simp [cleanList, hcd, cleanList_idem rest]
      | cons x xs =>
        have hk := cleanData_idem kvs
        rw [hcd] at hk
        simp [cleanList, hcd, hk, cleanList_idem rest]
    | arr l' => simp [cleanList, cleanList_idem rest]
    | str s =>
      by_cases hs : s = ""
      · simp [cleanList, hs, cleanList_idem rest]
      · simp [cleanList, hs, cleanList_idem rest]
    | bool b => simp [cleanList, cleanList_idem rest]
    | int n => simp [cleanList, cleanList_idem rest]
    | float q => simp [cleanList, cleanList_idem rest]

end

/-- C6: the Data Cleaner is idempotent — `clean(clean(x)) = clean(x)` for
every nested document (at both the dict and the list level) — and it drops
keys bound to `null`, `""`, and to dicts/lists that are empty *after
recursively cleaning their children*, while preserving the falsy scalars
`0` and `False`. -/
theorem c6_cleaner_idempotent :
    (∀ d, cleanData (cleanData d) = cleanData d) ∧
      (∀ l, cleanList (cleanList l) = cleanList l) ∧
      (∀ (k : String) d, cleanData ((k, JValue.null) :: d) = cleanData d) ∧
      (∀ (k : String) d, cleanData ((k, JValue.str "") :: d) = cleanData d) ∧
      (∀ (k : String) kvs d, cleanData ((k, JValue.obj kvs) :: d)
          = if (cleanData kvs).isEmpty then cleanData d
            else (k, JValue.obj (cleanData kvs)) :: cleanData d) ∧
      (∀ (k : String) xs d, cleanData ((k, JValue.arr xs) :: d)
          = if (cleanList xs).isEmpty then cleanData d
            else (k, JValue.arr (cleanList xs)) :: cleanData d) ∧
      (∀ (k : String) d, cleanData ((k, JValue.int 0) :: d)
          = (k, JValue.int 0) :: cleanData d) ∧
      (∀ (k : String) d, cleanData ((k, JValue.bool false) :: d)
          = (k, JValue.bool false) :: cleanData d) :=
  ⟨cleanData_idem, cleanList_idem,
   fun k d => by simp [cleanData],
   fun k d => by simp [cleanData],
   fun k kvs d => by simp [cleanData],
   fun k xs d => by simp [cleanData],
   fun k d => by simp [cleanData],
   fun k d => by simp [cleanData]⟩

/-! ### Python dict primitives (ordered association lists) -/

/-- `d[k]` lookup (`None`-free): the value at the first binding of `k`. -/
def dictGet? (d : List (String × JValue)) (k : String) : Option JValue :=
  match d with
  | [] => Option.none
  | kv :: rest => if kv.1 = k then some kv.2 else dictGet? rest k

/-- `d.get(k, default)`. -/
def dictGetD (d : List (String × JValue)) (k : String) (v₀ : JValue) : JValue :=
  (dictGet? d k).getD v₀

/-- `d[k] = v`: overwrite the binding in place, or append a new one. -/
def dictInsert (d : List (String × JValue)) (k : String) (v : JValue) :
    List (String × JValue) :=
  match d with
  | [] => [(k, v)]
  | kv :: rest => if kv.1 = k then (k, v) :: rest else kv :: dictInsert rest k v

theorem dictGet?_insert_self (d : List (String × JValue)) (k : String) (v : JValue) :
    dictGet? (dictInsert d k v) k = some v := by
  induction d with
  | nil => simp [dictInsert, dictGet?]
  | cons kv rest ih =>
    by_cases h : kv.1 = k
    · simp [dictInsert, dictGet?, h]
    · simp [dictInsert, dictGet?, h, ih]

theorem dictGet?_insert_ne (d : List (String × JValue)) (k k' : String) (v : JValue)
    (h : k' ≠ k) : dictGet? (dictInsert d k v) k' = dictGet? d k' := by
  induction d with
  | nil => simp [dictInsert, dictGet?, Ne.symm h]
  | cons kv rest ih =>
    by_cases hk : kv.1 = k
    · simp [dictInsert, dictGet?, hk, Ne.symm h]
    · simp [dictInsert, dictGet?, hk, ih]

/-! ### Basic Information: projection (`_create_basic_info_sheet`) and
reconstruction (`_parse_basic_information`) -/

/-- The fixed field list of `ODCSToExcelConverter._create_basic_info_sheet`:
`(field key, column description)` pairs, one worksheet row each. -/
def basic_fields : List (String × String) :=
  [("version", "Contract Version"),
   ("kind", "Contract Kind"),
   ("apiVersion", "API Version"),
   ("id", "Unique Identifier"),
   ("name", "Contract Name"),
   ("tenant", "Tenant"),
   ("status", "Status"),
   ("dataProduct", "Data Product"),
   ("domain", "Domain"),
   ("slaDefaultElement", "SLA Default Element"),
   ("contractCreatedTs", "Created Timestamp")]

/-- `_create_basic_info_sheet`: one `(Field, Value, Description)` row per
basic field, the value written as `str(data.get(field_key, ""))`. -/
def create_basic_info_rows (data : List (String × JValue)) :
    List (String × String × String) :=
  basic_fields.map fun fd => (fd.1, pyStrJ (dictGetD data fd.1 (JValue.str "")), fd.2)

/-- Modelled from the spec: the `contractCreatedTs` override of
`_parse_basic_information` parses a string cell as an ISO-8601 datetime
(`datetime.fromisoformat` after replacing `"Z"` with `"+00:00"`) and
re-serialises it with `.isoformat()`, falling back to `str(value)` when the
parse fails.  The `datetime` library is outside the embedded source; both
branches return the cell text up to ISO normalisation, which no claim
exercises, so the override is modelled as the identity on the cell text. -/
def parse_created_ts (s : String) : JValue := JValue.str s

/-- The row loop of `_parse_basic_information`, on `(Field, Value,
Description)` rows as written by the projector (string cells).  The
worksheet loader has already turned `""` cells into missing ones
(`df.where(df != "", None)`), so a row is skipped exactly when its field or
value text is empty; otherwise `data[field] = _convert_value(value)` (with
the `contractCreatedTs` override). -/
def parse_basic_information_aux (acc : List (String × JValue)) :
    List (String × String × String) → List (String × JValue)
  | [] => acc
  | (f, v, _) :: rest =>
    if v = "" then parse_basic_information_aux acc rest
    else if f = "" then parse_basic_information_aux acc rest
    else if f = "contractCreatedTs" then
      parse_basic_information_aux (dictInsert acc f (parse_created_ts v)) rest
    else
      parse_basic_information_aux (dictInsert acc f (convertValue (Cell.str v))) rest

/-- `_parse_basic_information` on the loaded rows. -/
def parse_basic_information (rows : List (String × String × String)) :
    List (String × JValue) :=
  parse_basic_information_aux [] rows

/-- Reconstruction of a key is unaffected by rows about other fields. -/
theorem parse_bi_stable (rows : List (String × String × String))
    (acc : List (String × JValue)) (k : String)
    (h : k ∉ rows.map (fun r => r.1)) :
    dictGet? (parse_basic_information_aux acc rows) k = dictGet? acc k := by
  induction rows generalizing acc with
  | nil => rfl
  | cons r rest ih =>
    obtain ⟨f, v, dsc⟩ := r
    simp only [List.map_cons, List.mem_cons, not_or] at h
    obtain ⟨h1, h2⟩ := h
    by_cases hv : v = ""
    · simp [parse_basic_information_aux, hv, ih _ h2]
    · by_cases hf0 : f = ""
      · simp [parse_basic_information_aux, hv, hf0, ih _ h2]
      · by_cases hf : f = "contractCreatedTs"
        · subst hf
          simp [parse_basic_information_aux, hv, hf0, ih _ h2,
            dictGet?_insert_ne _ _ _ _ h1]
        · simp [parse_basic_information_aux, hv, hf0, hf, ih _ h2,
            dictGet?_insert_ne _ _ _ _ h1]

/-- Reconstruction of the key of a non-empty, non-timestamp row located
anywhere in the row list (no later row re-mentioning the key) yields the
coerced cell value. -/
theorem parse_bi_found (pre post : List (String × String × String))
    (acc : List (String × JValue)) (k v dsc : String)
    (hv : v ≠ "") (hk : k ≠ "") (hcts : k ≠ "contractCreatedTs")
    (hpost : k ∉ post.map (fun r => r.1)) :
    dictGet? (parse_basic_information_aux acc (pre ++ (k, v, dsc) :: post)) k
      = some (convertValue (Cell.str v)) := by
  induction pre generalizing acc with
  | nil =>
    rw [List.nil_append, parse_basic_information_aux, if_neg hv, if_neg hk,
      if_neg hcts, parse_bi_stable _ _ _ hpost, dictGet?_insert_self]
  | cons r rest ih =>
    obtain ⟨f, v', dsc'⟩ := r
    rw [List.cons_append, parse_basic_information_aux]
    by_cases hv' : v' = ""
    · rw [if_pos hv']
      exact ih _
    · rw [if_neg hv']
      by_cases hf0 : f = ""
      · rw [if_pos hf0]
        exact ih _
      · rw [if_neg hf0]
        by_cases hf : f = "contractCreatedTs"
        · rw [if_pos hf]
          exact ih _
        · rw [if_neg hf]
          exact ih _

/-- A minimal document whose `version` text `"1.0"` is re-typed by the cell
coercion on the way back. -/
def c1_doc : List (String × JValue) :=
  [("version", JValue.str "1.0"), ("kind", JValue.str "DataContract"),
   ("apiVersion", JValue.str "v3.0.2"), ("id", JValue.str "c1"),
   ("status", JValue.str "active")]

/-- C1 (counterexample): projecting and reconstructing a minimal document
whose `version` is the string `"1.0"` yields `version = float 1.0`, not the
original string — `_convert_value` re-types numeric-looking strings, so the
round trip does not preserve the core fields with the same type and string
value for every minimal document. -/
theorem c1_core_round_trip_counterexample :
    dictGet? (parse_basic_information (create_basic_info_rows c1_doc)) "version"
        = some (JValue.float ⟨1, 0⟩) ∧
      dictGetD c1_doc "version" (JValue.str "") = JValue.str "1.0" ∧
      JValue.float ⟨1, 0⟩ ≠ JValue.str "1.0" := by
  refine ⟨?_, rfl, by simp⟩
  have h : create_basic_info_rows c1_doc
      = [("version", "1.0", "Contract Version"), ("kind", "DataContract", "Contract Kind"),
         ("apiVersion", "v3.0.2", "API Version"), ("id", "c1", "Unique Identifier"),
         ("name", "", "Contract Name"), ("tenant", "", "Tenant"),
         ("status", "active", "Status"), ("dataProduct", "", "Data Product"),
         ("domain", "", "Domain"), ("slaDefaultElement", "", "SLA Default Element"),
         ("contractCreatedTs", "", "Created Timestamp")] := by
    simp [create_basic_info_rows, c1_doc, basic_fields, dictGetD, dictGet?, pyStrJ]
  rw [parse_basic_information, h]
  rfl

/-- C1 (amended): the projection/reconstruction round trip preserves
`version`, `kind`, `apiVersion`, `id` and `status` exactly — same type and
string value — for every document in which those five fields are nonempty
strings that are fixed points of the cell coercion `_convert_value` (i.e.
not re-typeable as bool/int/float and unchanged by stripping), which holds
in particular for all enum-valid `kind`/`apiVersion` values and for
three-component versions such as `"1.0.0"`. -/
theorem c1_core_round_trip (d : List (String × JValue)) (vs ks as ids ss : String)
    (hver : dictGetD d "version" (JValue.str "") = JValue.str vs)
    (hverc : convertValue (Cell.str vs) = JValue.str vs) (hverne : vs ≠ "")
    (hkind : dictGetD d "kind" (JValue.str "") = JValue.str ks)
    (hkindc : convertValue (Cell.str ks) = JValue.str ks) (hkindne : ks ≠ "")
    (hapi : dictGetD d "apiVersion" (JValue.str "") = JValue.str as)
    (hapic : convertValue (Cell.str as) = JValue.str as) (hapine : as ≠ "")
    (hid : dictGetD d "id" (JValue.str "") = JValue.str ids)
    (hidc : convertValue (Cell.str ids) = JValue.str ids) (hidne : ids ≠ "")
    (hstat : dictGetD d "status" (JValue.str "") = JValue.str ss)
    (hstatc : convertValue (Cell.str ss) = JValue.str ss) (hstatne : ss ≠ "") :
    dictGet? (parse_basic_information (create_basic_info_rows d)) "version"
        = some (JValue.str vs) ∧
      dictGet? (parse_basic_information (create_basic_info_rows d)) "kind"
        = some (JValue.str ks) ∧
      dictGet? (parse_basic_information (create_basic_info_rows d)) "apiVersion"
        = some (JValue.str as) ∧
      dictGet? (parse_basic_information (create_basic_info_rows d)) "id"
        = some (JValue.str ids) ∧
      dictGet? (parse_basic_information (create_basic_info_rows d)) "status"
        = some (JValue.str ss) := by
  have hrows : create_basic_info_rows d
      = [("version", vs, "Contract Version"), ("kind", ks, "Contract Kind"),
         ("apiVersion", as, "API Version"), ("id", ids, "Unique Identifier"),
         ("name", pyStrJ (dictGetD d "name" (JValue.str "")), "Contract Name"),
         ("tenant", pyStrJ (dictGetD d "tenant" (JValue.str "")), "Tenant"),
         ("status", ss, "Status"),
         ("dataProduct", pyStrJ (dictGetD d "dataProduct" (JValue.str "")), "Data Product"),
         ("domain", pyStrJ (dictGetD d "domain" (JValue.str "")), "Domain"),
         ("slaDefaultElement", pyStrJ (dictGetD d "slaDefaultElement" (JValue.str "")),
           "SLA Default Element"),
         ("contractCreatedTs", pyStrJ (dictGetD d "contractCreatedTs" (JValue.str "")),
           "Created Timestamp")] := by
    simp [create_basic_info_rows, basic_fields, hver, hkind, hapi, hid, hstat, pyStrJ]
  rw [parse_basic_information, hrows]
  refine ⟨?_, ?_, ?_, ?_, ?_⟩
  · simpa [hverc] using parse_bi_found []
      [("kind", ks, "Contract Kind"),
       ("apiVersion", as, "API Version"), ("id", ids, "Unique Identifier"),
       ("name", pyStrJ (dictGetD d "name" (JValue.str "")), "Contract Name"),
       ("tenant", pyStrJ (dictGetD d "tenant" (JValue.str "")), "Tenant"),
       ("status", ss, "Status"),
       ("dataProduct", pyStrJ (dictGetD d "dataProduct" (JValue.str "")), "Data Product"),
       ("domain", pyStrJ (dictGetD d "domain" (JValue.str "")), "Domain"),
       ("slaDefaultElement", pyStrJ (dictGetD d "slaDefaultElement" (JValue.str "")),
         "SLA Default Element"),
       ("contractCreatedTs", pyStrJ (dictGetD d "contractCreatedTs" (JValue.str "")),
         "Created Timestamp")]
      [] "version" vs "Contract Version" hverne (by decide) (by decide) (by simp)
  · simpa [hkindc] using parse_bi_found [("version", vs, "Contract Version")]
      [("apiVersion", as, "API Version"), ("id", ids, "Unique Identifier"),
       ("name", pyStrJ (dictGetD d "name" (JValue.str "")), "Contract Name"),
       ("tenant", pyStrJ (dictGetD d "tenant" (JValue.str "")), "Tenant"),
       ("status", ss, "Status"),
       ("dataProduct", pyStrJ (dictGetD d "dataProduct" (JValue.str "")), "Data Product"),
       ("domain", pyStrJ (dictGetD d "domain" (JValue.str "")), "Domain"),
       ("slaDefaultElement", pyStrJ (dictGetD d "slaDefaultElement" (JValue.str "")),
         "SLA Default Element"),
       ("contractCreatedTs", pyStrJ (dictGetD d "contractCreatedTs" (JValue.str "")),
         "Created Timestamp")]
      [] "kind" ks "Contract Kind" hkindne (by decide) (by decide) (by simp)
  · simpa [hapic] using parse_bi_found
      [("version", vs, "Contract Version"), ("kind", ks, "Contract Kind")]
      [("id", ids, "Unique Identifier"),
       ("name", pyStrJ (dictGetD d "name" (JValue.str "")), "Contract Name"),
       ("tenant", pyStrJ (dictGetD d "tenant" (JValue.str "")), "Tenant"),
       ("status", ss, "Status"),
       ("dataProduct", pyStrJ (dictGetD d "dataProduct" (JValue.str "")), "Data Product"),
       ("domain", pyStrJ (dictGetD d "domain" (JValue.str "")), "Domain"),
       ("slaDefaultElement", pyStrJ (dictGetD d "slaDefaultElement" (JValue.str "")),
         "SLA Default Element"),
       ("contractCreatedTs", pyStrJ (dictGetD d "contractCreatedTs" (JValue.str "")),
         "Created Timestamp")]
      [] "apiVersion" as "API Version" hapine (by decide) (by decide) (by simp)
  · simpa [hidc] using parse_bi_found
      [("version", vs, "Contract Version"), ("kind", ks, "Contract Kind"),
       ("apiVersion", as, "API Version")]
      [("name", pyStrJ (dictGetD d "name" (JValue.str "")), "Contract Name"),
       ("tenant", pyStrJ (dictGetD d "tenant" (JValue.str "")), "Tenant"),
       ("status", ss, "Status"),
       ("dataProduct", pyStrJ (dictGetD d "dataProduct" (JValue.str "")), "Data Product"),
       ("domain", pyStrJ (dictGetD d "domain" (JValue.str "")), "Domain"),
       ("slaDefaultElement", pyStrJ (dictGetD d "slaDefaultElement" (JValue.str "")),
         "SLA Default Element"),
       ("contractCreatedTs", pyStrJ (dictGetD d "contractCreatedTs" (JValue.str "")),
         "Created Timestamp")]
      [] "id" ids "Unique Identifier" hidne (by decide) (by decide) (by simp)
  · simpa [hstatc] using parse_bi_found
      [("version", vs, "Contract Version"), ("kind", ks, "Contract Kind"),
       ("apiVersion", as, "API Version"), ("id", ids, "Unique Identifier"),
       ("name", pyStrJ (dictGetD d "name" (JValue.str "")), "Contract Name"),
       ("tenant", pyStrJ (dictGetD d "tenant" (JValue.str "")), "Tenant")]
      [("dataProduct", pyStrJ (dictGetD d "dataProduct" (JValue.str "")), "Data Product"),
       ("domain", pyStrJ (dictGetD d "domain" (JValue.str "")), "Domain"),
       ("slaDefaultElement", pyStrJ (dictGetD d "slaDefaultElement" (JValue.str "")),
         "SLA Default Element"),
       ("contractCreatedTs", pyStrJ (dictGetD d "contractCreatedTs" (JValue.str "")),
         "Created Timestamp")]
      [] "status" ss "Status" hstatne (by decide) (by decide) (by simp)

/-- The concrete minimal document of the spec scenario (three-component
version), used to witness the amended round-trip theorem. -/
def c1_witness_doc : List (String × JValue) :=
  [("version", JValue.str "1.0.0"), ("kind", JValue.str "DataContract"),
   ("apiVersion", JValue.str "v3.0.2"), ("id", JValue.str "c1"),
   ("status", JValue.str "active")]

/-- Witness: the amended round-trip theorem applied to a concrete minimal
document. -/
theorem c1_core_round_trip_witness :
    dictGet? (parse_basic_information (create_basic_info_rows c1_witness_doc)) "version"
        = some (JValue.str "1.0.0") ∧
      dictGet? (parse_basic_information (create_basic_info_rows c1_witness_doc)) "kind"
        = some (JValue.str "DataContract") ∧
      dictGet? (parse_basic_information (create_basic_info_rows c1_witness_doc)) "apiVersion"
        = some (JValue.str "v3.0.2") ∧
      dictGet? (parse_basic_information (create_basic_info_rows c1_witness_doc)) "id"
        = some (JValue.str "c1") ∧
      dictGet? (parse_basic_information (create_basic_info_rows c1_witness_doc)) "status"
        = some (JValue.str "active") :=
  c1_core_round_trip c1_witness_doc "1.0.0" "DataContract" "v3.0.2" "c1" "active"
    rfl rfl (by decide) rfl rfl (by decide) rfl rfl (by decide)
    rfl rfl (by decide) rfl rfl (by decide)

/-! ### C3: the deterministic coercion order of `_convert_value` -/

/-- C3 (counterexample): the claim says every string matching `^-?\d+$`,
including `"-7"`, coerces to an integer; but `str.isdigit()` rejects a
leading minus sign, `"-7"` contains no `.`, and so `_convert_value("-7")`
returns the string `"-7"`, not `Integer(-7)`. -/
theorem c3_coercion_counterexample :
    convertValue (Cell.str "-7") = JValue.str "-7" ∧
      JValue.str "-7" ≠ JValue.int (-7) :=
  ⟨rfl, by simp⟩

/-- C3 (amended): `_convert_value` follows the deterministic order on
strings — null/empty → null; case-insensitive `"true"`/`"false"` → bool;
then *nonnegative* digit strings (`^\d+$`; `isdigit` rejects a minus sign,
so `"-7"` stays a string) → int; then strings containing a `.` accepted by
`float()` → float; everything else → the stripped string — with the spec's
concrete examples holding as stated. -/
theorem c3_coercion_order :
    (convertValue Cell.none = JValue.null ∧ convertValue (Cell.str "") = JValue.null) ∧
    (∀ s : String, s ≠ "" → pyLower (pyStrip s) = "true" →
      convertValue (Cell.str s) = JValue.bool true) ∧
    (∀ s : String, s ≠ "" → pyLower (pyStrip s) = "false" →
      convertValue (Cell.str s) = JValue.bool false) ∧
    (∀ s : String, s ≠ "" → pyLower (pyStrip s) ≠ "true" → pyLower (pyStrip s) ≠ "false" →
      (pyStrip s).data.contains '.' = false → pyIsDigit (pyStrip s) = true →
      convertValue (Cell.str s) = JValue.int (digitsVal (pyStrip s).data)) ∧
    (∀ (s : String) (d : Dec10), s ≠ "" →
      pyLower (pyStrip s) ≠ "true" → pyLower (pyStrip s) ≠ "false" →
      (pyStrip s).data.contains '.' = true → pyFloatOfString? (pyStrip s) = some d →
      convertValue (Cell.str s) = JValue.float d) ∧
    (∀ s : String, s ≠ "" → pyLower (pyStrip s) ≠ "true" → pyLower (pyStrip s) ≠ "false" →
      pyIsDigit (pyStrip s) = false →
      ((pyStrip s).data.contains '.' = true → pyFloatOfString? (pyStrip s) = Option.none) →
      convertValue (Cell.str s) = JValue.str (pyStrip s)) ∧
    (convertValue (Cell.str "true") = JValue.bool true ∧
     convertValue (Cell.str "42") = JValue.int 42 ∧
     convertValue (Cell.str "42.5") = JValue.float ⟨425, 1⟩ ∧
     convertValue (Cell.str "") = JValue.null ∧
     convertValue (Cell.str "abc") = JValue.str "abc") := by
  refine ⟨⟨rfl, rfl⟩, ?_, ?_, ?_, ?_, ?_, rfl, rfl, rfl, rfl, rfl⟩
  · intro s hne h
    simp [convertValue, hne, h]
  · intro s hne h
    simp [convertValue, hne, h]
  · intro s hne ht hf hdot hdig
    have hd : '.' ∉ (pyStrip s).data := by simpa using hdot
    simp [convertValue, hne, ht, hf, hd, hdig]
  · intro s d hne ht hf hdot hfl
    have hd : '.' ∈ (pyStrip s).data := by simpa using hdot
    simp [convertValue, hne, ht, hf, hd, hfl]
  · intro s hne ht hf hdig hfl
    by_cases hdot : (pyStrip s).data.contains '.' = true
    · have hd : '.' ∈ (pyStrip s).data := by simpa using hdot
      simp [convertValue, hne, ht, hf, hd, hdig, hfl hdot]
    · have hd : '.' ∉ (pyStrip s).data := by simpa using hdot
      simp [convertValue, hne, ht, hf, hd, hdig]

/-- Witness: the hypothesis-bearing branches of the coercion-order theorem
applied at concrete inputs. -/
theorem c3_coercion_order_witness :
    convertValue (Cell.str " TRUE ") = JValue.bool true ∧
      convertValue (Cell.str "007") = JValue.int (digitsVal (pyStrip "007").data) ∧
      convertValue (Cell.str "3.25") = JValue.float ⟨325, 2⟩ :=
  ⟨c3_coercion_order.2.1 " TRUE " (by decide) (by decide),
   c3_coercion_order.2.2.2.1 "007" (by decide) (by decide) (by decide) (by decide) (by decide),
   c3_coercion_order.2.2.2.2.1 "3.25" ⟨325, 2⟩ (by decide) (by decide) (by decide)
     (by decide) (by decide)⟩

/-! ### Schema Properties reconstruction (`_enhance_schema_with_properties`) -/

/-- `pd.isna` on a loaded cell. -/
def Cell.isna : Cell → Bool
  | Cell.none => true
  | _ => false

/-- One row of the "Schema Properties" worksheet, by column.  A missing
column and a missing/NaN cell both behave as `Cell.none`: the code's
`row.get(col, default)` defaults (`False`, `-1`) coincide with what the
`_parse_*` helpers return on NaN. -/
structure PropRow where
  objectName : Cell := Cell.none
  propertyName : Cell := Cell.none
  logicalType : Cell := Cell.none
  physicalType : Cell := Cell.none
  physicalName : Cell := Cell.none
  description : Cell := Cell.none
  businessName : Cell := Cell.none
  required : Cell := Cell.none
  unique : Cell := Cell.none
  primaryKey : Cell := Cell.none
  pkPosition : Cell := Cell.none
  partitioned : Cell := Cell.none
  partitionPosition : Cell := Cell.none
  classification : Cell := Cell.none
  encryptedName : Cell := Cell.none
  criticalDataElement : Cell := Cell.none
  transformSources : Cell := Cell.none
  transformLogic : Cell := Cell.none
  transformDescription : Cell := Cell.none
  examples : Cell := Cell.none
  tags : Cell := Cell.none
  deriving Repr, DecidableEq

/-- The final `{k: v for k, v in prop.items() if v is not None and v != ""}`
comprehension: drop `None` values and `""` strings, keep everything else
(including `False`, `-1` and empty lists). -/
def dropEmptyOpt (l : List (String × Option JValue)) : List (String × JValue) :=
  l.filterMap fun kv =>
    match kv.2 with
    | some (JValue.str "") => Option.none
    | some v => some (kv.1, v)
    | Option.none => Option.none

def optStrJ (o : Option String) : Option JValue := o.map JValue.str

/-- The property dict built for one "Schema Properties" row (the body of the
row loop in `_enhance_schema_with_properties`), in the code's insertion
order, with the trailing `None`/`""` filter applied. -/
def buildProp (r : PropRow) : List (String × JValue) :=
  dropEmptyOpt
    ([("name", some (JValue.str (pyStrCell r.propertyName))),
      ("logicalType", optStrJ (parse_string r.logicalType)),
      ("physicalType", optStrJ (parse_string r.physicalType)),
      ("physicalName", optStrJ (parse_string r.physicalName)),
      ("description", optStrJ (parse_string r.description)),
      ("businessName", optStrJ (parse_string r.businessName)),
      ("required", some (JValue.bool (parse_boolean r.required))),
      ("unique", some (JValue.bool (parse_boolean r.unique))),
      ("primaryKey", some (JValue.bool (parse_boolean r.primaryKey))),
      ("primaryKeyPosition", some (JValue.int (parse_int r.pkPosition))),
      ("partitioned", some (JValue.bool (parse_boolean r.partitioned))),
      ("partitionKeyPosition", some (JValue.int (parse_int r.partitionPosition))),
      ("classification", optStrJ (parse_string r.classification)),
      ("encryptedName", optStrJ (parse_string r.encryptedName)),
      ("criticalDataElement", some (JValue.bool (parse_boolean r.criticalDataElement))),
      ("transformLogic", optStrJ (parse_string r.transformLogic)),
      ("transformDescription", optStrJ (parse_string r.transformDescription))]
     ++ (match parse_string r.transformSources with
         | some s =>
           [("transformSourceObjects", some (JValue.arr ((splitTrim s).map JValue.str)))]
         | Option.none => [])
     ++ (match parse_string r.examples with
         | some s => [("examples", some (JValue.arr ((splitTrim s).map JValue.str)))]
         | Option.none => [])
     ++ (match parse_string r.tags with
         | some s => [("tags", some (JValue.arr ((splitTrim s).map JValue.str)))]
         | Option.none => [])
     ++ [("quality", some (JValue.arr [])),
         ("authoritativeDefinitions", some (JValue.arr []))])

/-- A schema object during reconstruction, as produced by `_parse_schema`:
its mandatory `name` (`obj["name"]`, which the enhancement steps key on),
its property dicts (`obj["properties"]`), and its object-level quality
rules (`obj["quality"]`).  The remaining scalar entries of the dict are
irrelevant to the joins and carried opaquely in `fields`. -/
structure SchemaObjR where
  name : String
  fields : List (String × JValue) := []
  props : List (List (String × JValue)) := []
  quality : List JValue := []
  deriving Repr

/-- Append a property to the object `schema_objects[nm]` resolves to: the
dict comprehension `{obj["name"]: obj for obj in odcs_data["schema"]}` keeps
the *last* object with a duplicated name, so the append lands on the last
match. -/
def attachPropLast : List SchemaObjR → String → List (String × JValue) → List SchemaObjR
  | [], _, _ => []
  | o :: rest, nm, p =>
    if rest.any (fun o2 => o2.name == nm) then o :: attachPropLast rest nm p
    else if o.name == nm then { o with props := o.props ++ [p] } :: rest
    else o :: attachPropLast rest nm p

/-- The row loop of `_enhance_schema_with_properties`: each row is attached
iff its stringified `Object Name` names an existing schema object and its
`Property Name` cell is non-NaN; otherwise the row is skipped silently. -/
def enhance_schema_with_properties (objs : List SchemaObjR) :
    List PropRow → List SchemaObjR
  | [] => objs
  | r :: rest =>
    let nm := pyStrCell r.objectName
    if (objs.any fun o => o.name == nm) && !r.propertyName.isna then
      enhance_schema_with_properties (attachPropLast objs nm (buildProp r)) rest
    else
      enhance_schema_with_properties objs rest

theorem attachPropLast_name_eq (objs : List SchemaObjR) (nm : String)
    (p : List (String × JValue)) :
    (attachPropLast objs nm p).map SchemaObjR.name = objs.map SchemaObjR.name := by
  induction objs with
  | nil => rfl
  | cons o rest ih =>
    by_cases hany : (rest.any fun o2 => o2.name == nm) = true
    · simp [attachPropLast, hany, ih]
    · by_cases hone : (o.name == nm) = true
      · simp [attachPropLast, hany, hone]
      · simp [attachPropLast, hany, hone, ih]

theorem attachPropLast_nodup (objs : List SchemaObjR) (nm : String)
    (p : List (String × JValue)) (h : (objs.map SchemaObjR.name).Nodup) :
    attachPropLast objs nm p
      = objs.map fun o =>
          if o.name = nm then { o with props := o.props ++ [p] } else o := by
  induction objs with
  | nil => rfl
  | cons o rest ih =>
    simp only [List.map_cons, List.nodup_cons] at h
    obtain ⟨hno, hrest⟩ := h
    by_cases hany : (rest.any fun o2 => o2.name == nm) = true
    · have hmem : nm ∈ rest.map SchemaObjR.name := by
        simp only [List.any_eq_true, beq_iff_eq] at hany
        obtain ⟨o2, ho2, he⟩ := hany
        exact List.mem_map.mpr ⟨o2, ho2, he⟩
      have hone : ¬ o.name = nm := fun hh => hno (hh ▸ hmem)
      simp [attachPropLast, hany, hone, ih hrest]
    · have hnone : ∀ o2 ∈ rest, ¬ o2.name = nm := by
        simpa [List.any_eq_true] using hany
      by_cases hone : o.name = nm
      · have hrid :
            (rest.map fun o2 =>
              if o2.name = nm then { o2 with props := o2.props ++ [p] } else o2) = rest :=
          List.map_congr_left (fun o2 ho2 => by simp [hnone o2 ho2]) |>.trans
            (List.map_id rest)
        simp [attachPropLast, hany, hone, hrid]
      · simp [attachPropLast, hany, hone, ih hrest]

/-- C4: when schema object names are distinct (the claim's "two distinct
objects"), reconstruction attaches every "Schema Properties" row exactly to
the object named by its `Object Name` cell, in row order: each object ends
with its previous properties followed by the built dicts of precisely its
own matching rows.  Rows are never cross-joined or duplicated. -/
theorem c4_property_join_correct (objs : List SchemaObjR) (rows : List PropRow)
    (h : (objs.map SchemaObjR.name).Nodup) :
    enhance_schema_with_properties objs rows
      = objs.map fun o =>
          { o with props := o.props ++
              ((rows.filter fun r =>
                  (pyStrCell r.objectName == o.name) && !r.propertyName.isna).map
                buildProp) } := by
  induction rows generalizing objs with
  | nil =>
    simp only [enhance_schema_with_properties, List.filter_nil, List.map_nil,
      List.append_nil]
    exact (List.map_congr_left fun o _ => rfl).trans (List.map_id objs) |>.symm
  | cons r rest ih =>
    by_cases hg : ((objs.any fun o => o.name == pyStrCell r.objectName)
        && !r.propertyName.isna) = true
    · rw [Bool.and_eq_true] at hg
      obtain ⟨hany, hna⟩ := hg
      have hna' : r.propertyName.isna = false := by
        cases hh : r.propertyName.isna <;> simp [hh] at hna ⊢
      rw [enhance_schema_with_properties, if_pos (by simp [hany, hna'])]
      rw [attachPropLast_nodup _ _ _ h]
      have hnames :
          ((objs.map fun o =>
            if o.name = pyStrCell r.objectName
            then { o with props := o.props ++ [buildProp r] } else o).map
              SchemaObjR.name) = objs.map SchemaObjR.name := by
        rw [List.map_map]
        exact List.map_congr_left fun o _ => by
          by_cases ho : o.name = pyStrCell r.objectName <;> simp [ho]
      rw [ih _ (by rw [hnames]; exact h), List.map_map]
      refine List.map_congr_left fun o _ => ?_
      by_cases ho : o.name = pyStrCell r.objectName
      · simp only [Function.comp_apply, ho, if_pos rfl]
        rw [List.filter_cons_of_pos (by simp [ho, hna'])]
        simp [ho]
      · simp only [Function.comp_apply, if_neg ho]
        rw [List.filter_cons_of_neg (by simp [Ne.symm ho])]
    · rw [enhance_schema_with_properties, if_neg hg, ih _ h]
      rw [Bool.and_eq_true] at hg
      push_neg at hg
      refine List.map_congr_left fun o ho => ?_
      by_cases hany : (objs.any fun o => o.name == pyStrCell r.objectName) = true
      · have hna : r.propertyName.isna = true := by simpa using hg hany
        rw [List.filter_cons_of_neg (by simp [hna])]
      · have hnm : ∀ o2 ∈ objs, ¬ o2.name = pyStrCell r.objectName := by
          simpa [List.any_eq_true] using hany
        rw [List.filter_cons_of_neg (by simp [Ne.symm (hnm o ho)])]

/-- Two schema objects with distinct names. -/
def c4_objs : List SchemaObjR := [{ name := "orders" }, { name := "users" }]

/-- Both objects own a property named `id` in the worksheet. -/
def c4_row1 : PropRow := { objectName := Cell.str "orders", propertyName := Cell.str "id" }

def c4_row2 : PropRow := { objectName := Cell.str "users", propertyName := Cell.str "id" }

/-- Witness: the join-correctness theorem applied to two objects each owning
a property named `id`. -/
theorem c4_property_join_correct_witness :
    enhance_schema_with_properties c4_objs [c4_row1, c4_row2]
      = c4_objs.map fun o =>
          { o with props := o.props ++
              (([c4_row1, c4_row2].filter fun r =>
                  (pyStrCell r.objectName == o.name) && !r.propertyName.isna).map
                buildProp) } :=
  c4_property_join_correct c4_objs [c4_row1, c4_row2] (by decide)

/-- C7: a "Schema Properties" row whose stringified `Object Name` matches no
schema object is skipped without error and without effect: reconstruction
of the remaining rows proceeds as if the row were absent, wherever the row
sits in the worksheet. -/
theorem c7_unmatched_property_rows_dropped (objs : List SchemaObjR)
    (pre post : List PropRow) (r : PropRow)
    (h : pyStrCell r.objectName ∉ objs.map SchemaObjR.name) :
    enhance_schema_with_properties objs (pre ++ r :: post)
      = enhance_schema_with_properties objs (pre ++ post) := by
  induction pre generalizing objs with
  | nil =>
    have hany : (objs.any fun o => o.name == pyStrCell r.objectName) = false := by
      rw [List.any_eq_false]
      intro o ho
      simp only [beq_iff_eq]
      exact fun he => h (List.mem_map.mpr ⟨o, ho, he⟩)
    simp [enhance_schema_with_properties, hany]
  | cons p pre ih =>
    simp only [List.cons_append]
    rw [enhance_schema_with_properties, enhance_schema_with_properties]
    by_cases hp : ((objs.any fun o => o.name == pyStrCell p.objectName)
        && !p.propertyName.isna) = true
    · rw [if_pos hp, if_pos hp]
      exact ih _ (by rw [attachPropLast_name_eq]; exact h)
    · rw [if_neg hp, if_neg hp]
      exact ih _ h

/-- One schema object, named `orders`. -/
def c7_objs : List SchemaObjR := [{ name := "orders" }]

/-- A property row pointing at a nonexistent object. -/
def c7_row : PropRow := { objectName := Cell.str "ghost", propertyName := Cell.str "id" }

/-- Witness: an orphaned property row is dropped silently. -/
theorem c7_unmatched_property_rows_dropped_witness :
    enhance_schema_with_properties c7_objs [c7_row]
      = enhance_schema_with_properties c7_objs [] :=
  c7_unmatched_property_rows_dropped c7_objs [] [] c7_row (by decide)

/-! ### Quality Rules reconstruction (`_enhance_schema_with_quality_rules`) -/

/-- One row of the "Quality Rules" worksheet, by column. -/
structure QualityRow where
  objectName : Cell := Cell.none
  propertyName : Cell := Cell.none
  level : Cell := Cell.none
  name : Cell := Cell.none
  description : Cell := Cell.none
  type : Cell := Cell.none
  rule : Cell := Cell.none
  dimension : Cell := Cell.none
  severity : Cell := Cell.none
  businessImpact : Cell := Cell.none
  unit : Cell := Cell.none
  query : Cell := Cell.none
  engine : Cell := Cell.none
  implementation : Cell := Cell.none
  method : Cell := Cell.none
  scheduler : Cell := Cell.none
  schedule : Cell := Cell.none
  mustBe : Cell := Cell.none
  mustNotBe : Cell := Cell.none
  mustBeGreaterThan : Cell := Cell.none
  mustBeGreaterOrEqual : Cell := Cell.none
  mustBeLessThan : Cell := Cell.none
  mustBeLessOrEqual : Cell := Cell.none
  mustBeBetween : Cell := Cell.none
  mustNotBeBetween : Cell := Cell.none
  validValues : Cell := Cell.none
  tags : Cell := Cell.none
  deriving Repr, DecidableEq

/-- A numeric-operator entry: added only when the cell is non-NaN, holding
`_parse_number`'s result (which is `None` — later filtered out — when the
text does not parse). -/
def numEntry (key : String) (c : Cell) : List (String × Option JValue) :=
  if c.isna then [] else [(key, parse_number c)]

/-- A between-operator entry: added when `_parse_string` of the cell is
truthy, holding the comma-split, per-segment `_parse_number` results (a
failed segment parse contributes Python `None`, i.e. `null`). -/
def betweenEntry (key : String) (c : Cell) : List (String × Option JValue) :=
  match parse_string c with
  | some s =>
    [(key, some (JValue.arr ((splitTrim s).map fun t =>
        (parse_number (Cell.str t)).getD JValue.null)))]
  | Option.none => []

/-- A comma-separated string-list entry (`Valid Values`, `Tags`). -/
def strListEntry (key : String) (c : Cell) : List (String × Option JValue) :=
  match parse_string c with
  | some s => [(key, some (JValue.arr ((splitTrim s).map JValue.str)))]
  | Option.none => []

/-- The rule dict built for one "Quality Rules" row (the body of the row
loop of `_enhance_schema_with_quality_rules`), in the code's insertion
order, with the trailing `None`/`""` filter applied.  `type` falls back to
`"library"` when its cell parses to `None`. -/
def buildRule (r : QualityRow) : List (String × JValue) :=
  dropEmptyOpt
    ([("name", optStrJ (parse_string r.name)),
      ("description", optStrJ (parse_string r.description)),
      ("type", some (JValue.str ((parse_string r.type).getD "library"))),
      ("rule", optStrJ (parse_string r.rule)),
      ("dimension", optStrJ (parse_string r.dimension)),
      ("severity", optStrJ (parse_string r.severity)),
      ("businessImpact", optStrJ (parse_string r.businessImpact)),
      ("unit", optStrJ (parse_string r.unit)),
      ("query", optStrJ (parse_string r.query)),
      ("engine", optStrJ (parse_string r.engine)),
      ("implementation", optStrJ (parse_string r.implementation)),
      ("method", optStrJ (parse_string r.method)),
      ("scheduler", optStrJ (parse_string r.scheduler)),
      ("schedule", optStrJ (parse_string r.schedule))]
     ++ numEntry "mustBe" r.mustBe
     ++ numEntry "mustNotBe" r.mustNotBe
     ++ numEntry "mustBeGreaterThan" r.mustBeGreaterThan
     ++ numEntry "mustBeGreaterOrEqualTo" r.mustBeGreaterOrEqual
     ++ numEntry "mustBeLessThan" r.mustBeLessThan
     ++ numEntry "mustBeLessOrEqualTo" r.mustBeLessOrEqual
     ++ betweenEntry "mustBeBetween" r.mustBeBetween
     ++ betweenEntry "mustNotBeBetween" r.mustNotBeBetween
     ++ strListEntry "validValues" r.validValues
     ++ strListEntry "tags" r.tags)

/-- Python `prop["name"] == prop_name`: a dict value compared to a string
(only a string value can be equal). -/
def jEqStr (v : JValue) (nm : String) : Bool :=
  match v with
  | JValue.str s => s == nm
  | _ => false

/-- `list.append` on a `"quality"` value.  Properties built by the parser
always carry a list here; on any other value CPython would raise
(`AttributeError`), which is unreachable on parser-built documents, so the
value is returned unchanged. -/
def arrAppend (v x : JValue) : JValue :=
  match v with
  | JValue.arr xs => JValue.arr (xs ++ [x])
  | v => v

/-- `if "quality" not in prop: prop["quality"] = []` followed by
`prop["quality"].append(rule)`. -/
def appendRuleToProp (p : List (String × JValue)) (rule : JValue) :
    List (String × JValue) :=
  let p' := if p.any (fun kv => kv.1 == "quality") then p
            else p ++ [("quality", JValue.arr [])]
  p'.map fun kv => if kv.1 == "quality" then (kv.1, arrAppend kv.2 rule) else kv

/-- The attach loop at the end of the row body: every object whose name
matches gets the rule — at object level when `level == "object"` or the
property name is falsy, at property level (on every matching property) when
`level == "property"` and the property name is truthy; otherwise the row
attaches nowhere. -/
def attachRule (objs : List SchemaObjR) (objName propName levelStr : String)
    (rule : List (String × JValue)) : List SchemaObjR :=
  objs.map fun o =>
    if o.name == objName then
      if levelStr == "object" || propName == "" then
        { o with quality := o.quality ++ [JValue.obj rule] }
      else if levelStr == "property" && propName != "" then
        { o with props := o.props.map fun p =>
            if jEqStr (dictGetD p "name" JValue.null) propName
            then appendRuleToProp p (JValue.obj rule) else p }
      else o
    else o

/-- The initialisation loop: ensure a `"quality"` key on every property
dict.  (Objects get `obj["quality"] = []` too; in this embedding an
object's quality list always exists, so only the property dicts change.) -/
def initQuality (objs : List SchemaObjR) : List SchemaObjR :=
  objs.map fun o =>
    { o with props := o.props.map fun p =>
        if p.any (fun kv => kv.1 == "quality") then p
        else p ++ [("quality", JValue.arr [])] }

/-- The row loop of `_enhance_schema_with_quality_rules`: a row whose `Name`
and `Description` cells are both NaN is skipped (`continue`) before any
rule is built; otherwise the rule dict is built and attached by
`(Object Name, Property Name, Level)`. -/
def enhance_quality_rows (objs : List SchemaObjR) :
    List QualityRow → List SchemaObjR
  | [] => objs
  | r :: rest =>
    if r.name.isna && r.description.isna then enhance_quality_rows objs rest
    else
      enhance_quality_rows
        (attachRule objs (pyStrCell r.objectName) (pyStrCell r.propertyName)
          (pyStrCell r.level) (buildRule r)) rest

/-- `_enhance_schema_with_quality_rules`: initialisation, then the row
loop. -/
def enhance_schema_with_quality_rules (objs : List SchemaObjR)
    (rows : List QualityRow) : List SchemaObjR :=
  enhance_quality_rows (initQuality objs) rows

/-- C9: a "Quality Rules" row whose `Name` and `Description` cells are both
missing/NaN is skipped entirely — no rule is created and nothing is
attached anywhere, whatever its other cells contain: reconstruction equals
reconstruction with the row removed. -/
theorem c9_nameless_quality_rows_skipped (objs : List SchemaObjR)
    (pre post : List QualityRow) (r : QualityRow)
    (h1 : r.name = Cell.none) (h2 : r.description = Cell.none) :
    enhance_schema_with_quality_rules objs (pre ++ r :: post)
      = enhance_schema_with_quality_rules objs (pre ++ post) := by
  unfold enhance_schema_with_quality_rules
  generalize initQuality objs = os
  induction pre generalizing os with
  | nil => simp [enhance_quality_rows, h1, h2, Cell.isna]
  | cons p pre ih =>
    simp only [List.cons_append]
    rw [enhance_quality_rows, enhance_quality_rows]
    by_cases hp : (p.name.isna && p.description.isna) = true
    · rw [if_pos hp, if_pos hp]
      exact ih _
    · rw [if_neg hp, if_neg hp]
      exact ih _

/-- A row carrying a query and operators but no name and no description. -/
def c9_row : QualityRow :=
  { objectName := Cell.str "orders", propertyName := Cell.str "id",
    level := Cell.str "property", type := Cell.str "sql",
    query := Cell.str "SELECT 1", mustBe := Cell.int 0,
    mustBeBetween := Cell.str "1, 2" }

/-- One schema object for the quality-rule scenario. -/
def c9_objs : List SchemaObjR := [{ name := "orders" }]

/-- Witness: the nameless-row theorem applied to a one-object document and a
row full of other data. -/
theorem c9_nameless_quality_rows_skipped_witness :
    enhance_schema_with_quality_rules c9_objs [c9_row]
      = enhance_schema_with_quality_rules c9_objs [] :=
  c9_nameless_quality_rows_skipped c9_objs [] [] c9_row rfl rfl

/-! ### The Contract Schema Model (`models.py`)

Pydantic model instantiation is embedded as typed structures (the type
annotations of the fields) plus a `valid` predicate per model running the
declared validators: the enum-membership checks induced by enum-typed
fields under `use_enum_values`, the `field_validator` for nonempty
`id`/`version`/`status`, and the `model_validator`
`validate_primary_key_position`.  `Union[int, float]` fields hold `PyNum`.
The optional server / support / pricing / team / role / SLA /
authoritative-definition / custom-property sections carry no cross-field
validators and are absent from every document the claims below quantify
over; they are omitted from the embedded contract. -/

/-- A value of pydantic type `Union[int, float]`. -/
inductive PyNum where
  | int (n : Int)
  | float (d : Dec10)
  deriving Repr, DecidableEq

/-- `QualityDimensionEnum` member values (with two-letter synonyms). -/
def qualityDimensionEnum : List String :=
  ["accuracy", "ac", "completeness", "cp", "conformity", "cf", "consistency", "cs",
   "coverage", "cv", "timeliness", "tm", "uniqueness", "uq"]

/-- `LogicalTypeEnum` member values. -/
def logicalTypeEnum : List String :=
  ["string", "date", "number", "integer", "object", "array", "boolean"]

/-- `ApiVersionEnum` member values. -/
def apiVersionEnum : List String :=
  ["v3.1.0", "v3.0.2", "v3.0.1", "v3.0.0", "v2.2.2", "v2.2.1", "v2.2.0"]

/-- `models.LogicalTypeOptions` (no validators of its own). -/
structure LogicalTypeOptions where
  format : Option String := Option.none
  minLength : Option Int := Option.none
  maxLength : Option Int := Option.none
  pattern : Option String := Option.none
  minimum : Option PyNum := Option.none
  maximum : Option PyNum := Option.none
  exclusiveMinimum : Option Bool := Option.none
  exclusiveMaximum : Option Bool := Option.none
  multipleOf : Option PyNum := Option.none
  minItems : Option Int := Option.none
  maxItems : Option Int := Option.none
  uniqueItems : Option Bool := Option.none
  minProperties : Option Int := Option.none
  maxProperties : Option Int := Option.none
  required : Option (List String) := Option.none
  deriving Repr, DecidableEq

/-- `models.DataQuality`.  Note the declaration of `mustBeBetween` and
`mustNotBeBetween`: `Optional[List[Union[int, float]]]` — a list of numbers
of *any* length, with no length validator anywhere in the model. -/
structure DataQuality where
  name : Option String := Option.none
  description : Option String := Option.none
  dimension : Option String := Option.none
  type : Option String := some "library"
  severity : Option String := Option.none
  businessImpact : Option String := Option.none
  rule : Option String := Option.none
  unit : Option String := Option.none
  validValues : Option (List JValue) := Option.none
  query : Option String := Option.none
  engine : Option String := Option.none
  implementation : Option String := Option.none
  mustBe : Option PyNum := Option.none
  mustNotBe : Option PyNum := Option.none
  mustBeGreaterThan : Option PyNum := Option.none
  mustBeGreaterOrEqualTo : Option PyNum := Option.none
  mustBeLessThan : Option PyNum := Option.none
  mustBeLessOrEqualTo : Option PyNum := Option.none
  mustBeBetween : Option (List PyNum) := Option.none
  mustNotBeBetween : Option (List PyNum) := Option.none
  method : Option String := Option.none
  schedule : Option String := Option.none
  scheduler : Option String := Option.none
  tags : Option (List String) := Option.none
  deriving Repr

/-- Enum-typed optional field check under `use_enum_values`: a present value
must be a member value. -/
def optEnumOk (enumVals : List String) : Option String → Bool
  | some v => enumVals.contains v
  | Option.none => true

/-- Successful instantiation of `DataQuality`: the only declared constraint
beyond field types is the `dimension` enum.  In particular the lengths of
`mustBeBetween`/`mustNotBeBetween` are *not* checked. -/
def DataQuality.valid (r : DataQuality) : Bool :=
  optEnumOk qualityDimensionEnum r.dimension

/-- `models.SchemaProperty`.  `items` is `Union[SchemaProperty, Dict]` in the
source; the dict arm accepts any dict, so it is carried opaquely. -/
structure SchemaProperty where
  name : String
  logicalType : Option String := Option.none
  logicalTypeOptions : Option LogicalTypeOptions := Option.none
  physicalType : Option String := Option.none
  physicalName : Option String := Option.none
  description : Option String := Option.none
  businessName : Option String := Option.none
  required : Option Bool := some false
  unique : Option Bool := some false
  primaryKey : Option Bool := some false
  primaryKeyPosition : Option Int := some (-1)
  partitioned : Option Bool := some false
  partitionKeyPosition : Option Int := some (-1)
  classification : Option String := Option.none
  encryptedName : Option String := Option.none
  criticalDataElement : Option Bool := some false
  transformSourceObjects : Option (List String) := Option.none
  transformLogic : Option String := Option.none
  transformDescription : Option String := Option.none
  items : Option JValue := Option.none
  examples : Option (List JValue) := Option.none
  tags : Option (List String) := Option.none
  quality : Option (List DataQuality) := Option.none
  deriving Repr

/-- Python truthiness of an `Optional[bool]` (`None` and `False` are falsy). -/
def pyTruthyOptBool : Option Bool → Bool
  | some b => b
  | Option.none => false

/-- The `model_validator` `SchemaProperty.validate_primary_key_position`:
raises (`some` error message) iff `self.primaryKey` is truthy and
`self.primaryKeyPosition` is `None` or negative. -/
def SchemaProperty.validate_primary_key_position (p : SchemaProperty) :
    Option String :=
  if pyTruthyOptBool p.primaryKey
      && (match p.primaryKeyPosition with
          | Option.none => true
          | some n => decide (n < 0)) then
    some "primaryKeyPosition is required when primaryKey is True"
  else Option.none

/-- Successful instantiation of `SchemaProperty`: the `logicalType` enum,
the primary-key model validator, and the nested quality rules. -/
def SchemaProperty.valid (p : SchemaProperty) : Bool :=
  optEnumOk logicalTypeEnum p.logicalType
  && p.validate_primary_key_position.isNone
  && (match p.quality with
      | some qs => qs.all DataQuality.valid
      | Option.none => true)

/-- `models.SchemaObject` (its `logicalType` is a plain `Optional[str]`, not
enum-checked). -/
structure SchemaObject where
  name : String
  logicalType : Option String := some "object"
  physicalName : Option String := Option.none
  physicalType : Option String := Option.none
  description : Option String := Option.none
  businessName : Option String := Option.none
  dataGranularityDescription : Option String := Option.none
  properties : Option (List SchemaProperty) := Option.none
  tags : Option (List String) := Option.none
  quality : Option (List DataQuality) := Option.none
  deriving Repr

/-- Successful instantiation of `SchemaObject`: nested properties and
quality rules validate. -/
def SchemaObject.valid (o : SchemaObject) : Bool :=
  (match o.properties with
   | some ps => ps.all SchemaProperty.valid
   | Option.none => true)
  && (match o.quality with
      | some qs => qs.all DataQuality.valid
      | Option.none => true)

/-- `models.ODCSDataContract`, restricted to the fields the claims quantify
over (see the section comment). -/
structure ODCSDataContract where
  version : String
  kind : String := "DataContract"
  apiVersion : String
  id : String
  status : String
  name : Option String := Option.none
  tenant : Option String := Option.none
  tags : Option (List String) := Option.none
  dataProduct : Option String := Option.none
  domain : Option String := Option.none
  slaDefaultElement : Option String := Option.none
  schema : Option (List SchemaObject) := Option.none
  deriving Repr

/-- Successful instantiation of `ODCSDataContract`: the
`validate_non_empty_string` field validator on `id`/`version`/`status`, the
`kind` and `apiVersion` enums, and the nested schema objects. -/
def ODCSDataContract.valid (c : ODCSDataContract) : Bool :=
  (pyStrip c.version != "") && (pyStrip c.id != "") && (pyStrip c.status != "")
  && (c.kind == "DataContract")
  && apiVersionEnum.contains c.apiVersion
  && (match c.schema with
      | some os => os.all SchemaObject.valid
      | Option.none => true)

/-- `ExcelToODCSParser.validate_odcs_data`: `True` iff `ODCSDataContract`
instantiation raises no validation error. -/
def validate_odcs_data (c : ODCSDataContract) : Bool := c.valid

/-! ### C2: the `mustBeBetween` two-element "invariant" -/

/-- A quality rule whose `mustBeBetween` is the given list. -/
def c2_rule (xs : List PyNum) : DataQuality :=
  { name := some "row count bound", mustBeBetween := some xs }

/-- An otherwise-valid contract containing that rule at object level. -/
def c2_contract (xs : List PyNum) : ODCSDataContract :=
  { version := "1.0.0", apiVersion := "v3.0.2", id := "c1", status := "active",
    schema := some [{ name := "t1", quality := some [c2_rule xs] }] }

/-- C2 (counterexample): a reconstructed document containing a quality rule
whose `mustBeBetween` array has length 1 ≠ 2 validates *cleanly* —
`DataQuality` declares the field as `Optional[List[Union[int, float]]]`
with no length validator, so the claimed exactly-2-elements invariant is
not enforced anywhere. -/
theorem c2_between_length_counterexample :
    validate_odcs_data (c2_contract [PyNum.int 1000]) = true ∧
      (c2_rule [PyNum.int 1000]).mustBeBetween.map List.length ≠ some 2 :=
  ⟨rfl, by simp [c2_rule]⟩

/-- The object layer of the any-length contract. -/
def c2_obj (xs ys : Option (List PyNum)) : SchemaObject :=
  { name := "t1",
    quality := some [{ name := some "row count bound",
                       mustBeBetween := xs, mustNotBeBetween := ys }] }

/-- C2 (amended): validation enforces *no* length constraint on
`mustBeBetween`/`mustNotBeBetween`: a contract whose quality rule carries
those arrays with any contents (any length, or absent) still validates
cleanly. -/
theorem c2_between_length_not_enforced (xs ys : Option (List PyNum)) :
    validate_odcs_data
        { version := "1.0.0", apiVersion := "v3.0.2", id := "c1", status := "active",
          schema := some [c2_obj xs ys] }
      = true := rfl

/-! ### C5: the primary-key position validator -/

/-- C5: `validate_primary_key_position` reports an error iff `primaryKey`
is `True` and `primaryKeyPosition` is absent (`None`) or negative; in
particular `primaryKey=True, primaryKeyPosition=-1` fails with the
validator's error message while `primaryKey=True, primaryKeyPosition=1`
passes (and such a property validates as a whole). -/
theorem c5_primary_key_validator :
    (∀ p : SchemaProperty, p.validate_primary_key_position ≠ Option.none ↔
        (p.primaryKey = some true ∧
          (p.primaryKeyPosition = Option.none ∨
            ∃ n, p.primaryKeyPosition = some n ∧ n < 0))) ∧
      SchemaProperty.validate_primary_key_position
          { name := "pk", primaryKey := some true, primaryKeyPosition := some (-1) }
        = some "primaryKeyPosition is required when primaryKey is True" ∧
      SchemaProperty.validate_primary_key_position
          { name := "pk", primaryKey := some true, primaryKeyPosition := some 1 }
        = Option.none ∧
      SchemaProperty.valid
          { name := "pk", logicalType := some "integer",
            primaryKey := some true, primaryKeyPosition := some 1 }
        = true := by
  refine ⟨?_, rfl, rfl, rfl⟩
  intro p
  rcases hpk : p.primaryKey with _ | b
  · simp [SchemaProperty.validate_primary_key_position, pyTruthyOptBool, hpk]
  · cases b
    · simp [SchemaProperty.validate_primary_key_position, pyTruthyOptBool, hpk]
    · rcases hpos : p.primaryKeyPosition with _ | n
      · simp [SchemaProperty.validate_primary_key_position, pyTruthyOptBool, hpk, hpos]
      · by_cases hn : n < 0
        · simp [SchemaProperty.validate_primary_key_position, pyTruthyOptBool, hpk,
            hpos, hn]
        · simp [SchemaProperty.validate_primary_key_position, pyTruthyOptBool, hpk,
            hpos, hn]

/-! ### C10: `_parse_string` null normalisation -/

/-- C10: `_parse_string` returns `None` exactly on missing/NaN cells and on
cells whose stripped text is empty or case-insensitively `"nan"` (so cells
literally containing `"nan"`/`"NaN"`/`"NAN"` are treated as absent, and the
corresponding field is omitted from a reconstructed property dict); every
non-`None` result is the whitespace-stripped cell text. -/
theorem c10_parse_string_normalisation :
    (∀ c : Cell, parse_string c = Option.none ↔
        (c = Cell.none ∨ pyStrip (pyStrCell c) = ""
          ∨ pyLower (pyStrip (pyStrCell c)) = "nan")) ∧
      (∀ (c : Cell) (s : String), parse_string c = some s → s = pyStrip (pyStrCell c)) ∧
      (parse_string (Cell.str "nan") = Option.none ∧
       parse_string (Cell.str "NaN") = Option.none ∧
       parse_string (Cell.str "NAN") = Option.none) ∧
      "description" ∉ (buildProp { propertyName := Cell.str "id",
                                   description := Cell.str "NaN" }).map Prod.fst := by
  refine ⟨?_, ?_, ⟨rfl, rfl, rfl⟩, by decide⟩
  · intro c
    cases c with
    | none => simp [parse_string]
    | bool b => simp only [parse_string]; split_ifs with h <;> simp_all
    | int n => simp only [parse_string]; split_ifs with h <;> simp_all
    | float d => simp only [parse_string]; split_ifs with h <;> simp_all
    | str s => simp only [parse_string]; split_ifs with h <;> simp_all
  · intro c s h
    cases c with
    | none => simp [parse_string] at h
    | bool b =>
      simp only [parse_string] at h
      split_ifs at h
      simpa using h.symm
    | int n =>
      simp only [parse_string] at h
      split_ifs at h
      simpa using h.symm
    | float d =>
      simp only [parse_string] at h
      split_ifs at h
      simpa using h.symm
    | str s' =>
      simp only [parse_string] at h
      split_ifs at h
      simpa using h.symm

/-- Witness: the trimmed-result branch of the `_parse_string` theorem at a
concrete padded cell. -/
theorem c10_parse_string_normalisation_witness :
    "x" = pyStrip (pyStrCell (Cell.str "  x ")) :=
  c10_parse_string_normalisation.2.1 (Cell.str "  x ") "x" rfl

end ODCS
